import Mathlib

/-!
Verification of the kernel error module of ref-fvm
(`src/fvm/src/kernel/error.rs`): the `ExecutionError` taxonomy and its
`exit_code` resolution, the block-storage source adapter, and the boundary
bridge that transports an `ExecutionError` across the bytecode engine's
trap channel (`ErrorEnvelope`, `From<ExecutionError> for Trap`,
`From<Trap> for ExecutionError`).

The mutable slot of the carrier (`Mutex<Option<ExecutionError>>`) is
embedded as an explicit state value threaded through the bridge
operations; a failed lock acquisition (a poisoned mutex) is a `poisoned`
flag on that state.
-/

namespace RefFvm

/-- Modelled from the spec: `fvm_shared::error::ExitCode`, the actor-level
outcome-code enumeration, is external to this module. Only the codes this
module names are distinguished; `other n` stands for the remaining codes of
the outcome-code space. -/
inductive ExitCode where
  | ErrPlaceholder
  | SysErrIllegalArgument
  | SysErrIllegalActor
  | other (n : Nat)
  deriving DecidableEq, Repr

/-- Modelled from the spec: `fvm_shared::error::ActorError` is external; it
is a fault value that already carries its own normative outcome code plus a
human-readable message. -/
structure ActorError where
  code : ExitCode
  msg : String
  deriving DecidableEq, Repr

/-- Modelled from the spec: the actor fault's own code-producing accessor,
the only call this module makes into the actor fault domain. -/
def ActorError.exit_code (e : ActorError) : ExitCode :=
  e.code

/-- Modelled from the spec: the `actor_error!` constructor of
`fvm_shared`, building an actor fault from a code and a message. -/
def actor_error (code : ExitCode) (msg : String) : ActorError :=
  ⟨code, msg⟩

/-- `SyscallError(pub String, pub Option<ExitCode>)` from
`src/fvm/src/kernel/error.rs`: a message and an optional advised exit
code. -/
structure SyscallError where
  msg : String
  code : Option ExitCode
  deriving DecidableEq, Repr

/-- Modelled from the spec: `anyhow::Error` is external; observationally it
is the carried description string. -/
structure AnyhowError where
  msg : String
  deriving DecidableEq, Repr

/-- `enum ExecutionError` from `src/fvm/src/kernel/error.rs`: the
three-variant taxonomy. -/
inductive ExecutionError where
  | Actor (e : ActorError)
  | Syscall (e : SyscallError)
  | SystemError (e : AnyhowError)
  deriving DecidableEq, Repr

/-- `ExecutionError::exit_code` from `src/fvm/src/kernel/error.rs`. -/
def ExecutionError.exit_code : ExecutionError → ExitCode
  | .Actor e => e.exit_code
  | .SystemError _ => ExitCode.ErrPlaceholder
  | .Syscall ⟨_, exitCode⟩ => exitCode.getD ExitCode.ErrPlaceholder

/-- Discriminator for the `Actor` variant. -/
def ExecutionError.isActor : ExecutionError → Bool
  | .Actor _ => true
  | _ => false

/-- Discriminator for the `SystemError` variant. -/
def ExecutionError.isSystemError : ExecutionError → Bool
  | .SystemError _ => true
  | _ => false

/-- Modelled from the spec: `crate::kernel::blocks::BlockError` is declared
outside this file; its variant names are those matched in
`src/fvm/src/kernel/error.rs` and each variant's payload is abstracted to
the textual content of its description. -/
inductive BlockError where
  | Unreachable (d : String)
  | InvalidHandle (d : String)
  | InvalidMultihashSpec (d : String)
  | InvalidCodec (d : String)
  | TooManyBlocks
  | MissingState (k : String)
  deriving DecidableEq, Repr

/-- Modelled from the spec: the foreign error's textual description
(`e.to_string()`), one fixed phrase per cause as the spec names them. -/
def BlockError.toString : BlockError → String
  | .Unreachable d => "unreachable block: " ++ d
  | .InvalidHandle d => "invalid handle: " ++ d
  | .InvalidMultihashSpec d => "invalid hash-spec: " ++ d
  | .InvalidCodec d => "invalid codec: " ++ d
  | .TooManyBlocks => "too many blocks"
  | .MissingState k => "missing state for: " ++ k

/-- `impl From<blocks::BlockError> for ExecutionError` from
`src/fvm/src/kernel/error.rs`: the block-storage source adapter. -/
def ExecutionError.ofBlockError : BlockError → ExecutionError
  | .Unreachable d =>
      .Actor (actor_error .SysErrIllegalArgument (BlockError.Unreachable d).toString)
  | .InvalidHandle d =>
      .Actor (actor_error .SysErrIllegalArgument (BlockError.InvalidHandle d).toString)
  | .InvalidMultihashSpec d =>
      .Actor (actor_error .SysErrIllegalArgument (BlockError.InvalidMultihashSpec d).toString)
  | .InvalidCodec d =>
      .Actor (actor_error .SysErrIllegalArgument (BlockError.InvalidCodec d).toString)
  | .TooManyBlocks =>
      .Actor (actor_error .SysErrIllegalActor BlockError.TooManyBlocks.toString)
  | .MissingState k =>
      .SystemError ⟨"missing block: " ++ k⟩

/-- The state of one carrier `struct ErrorEnvelope` from
`src/fvm/src/kernel/error.rs`: `inner` is the content of the
`Mutex<Option<ExecutionError>>` slot, and `poisoned` records whether lock
acquisition on that mutex fails (`inner.lock().ok()` returns `None`). -/
structure ErrorEnvelope where
  poisoned : Bool
  inner : Option ExecutionError
  deriving DecidableEq, Repr

/-- `ErrorEnvelope::wrap` from `src/fvm/src/kernel/error.rs`: a fresh
carrier holding the error, lock healthy. -/
def ErrorEnvelope.wrap (e : ExecutionError) : ErrorEnvelope :=
  ⟨false, some e⟩

/-- The carrier's `Display` from `src/fvm/src/kernel/error.rs`
(`#[display(fmt = "wrapping error")]`): a constant, independent of the
slot's content. -/
def ErrorEnvelope.display : String :=
  "wrapping error"

/-- A type-erased error object as it sits in a trap's cause chain: either
the carrier (there is one carrier per failure-propagation episode, whose
state is the accompanying `ErrorEnvelope` value) or a foreign,
engine-originated error with a message and an optional underlying cause. -/
inductive ErrObj where
  | carrier : ErrObj
  | foreign (msg : String) (src : Option ErrObj)

/-- `impl std::error::Error for ErrorEnvelope` from
`src/fvm/src/kernel/error.rs`: the carrier's `source` is the carrier
itself (the deliberate self-reference); a foreign error exposes its own
optional cause. -/
def ErrObj.source : ErrObj → Option ErrObj
  | .carrier => some .carrier
  | .foreign _ s => s

/-- Displayed description of a type-erased error object: the carrier
displays its constant string, a foreign error its own message. -/
def ErrObj.display : ErrObj → String
  | .carrier => ErrorEnvelope.display
  | .foreign m _ => m

/-- Whether the carrier occurs anywhere in the cause chain rooted at this
object (the carrier's chain is the carrier repeated, by self-reference). -/
def ErrObj.chainHasCarrier : ErrObj → Bool
  | .carrier => true
  | .foreign _ none => false
  | .foreign _ (some s) => s.chainHasCarrier

/-- Modelled from the spec: `wasmtime::Trap` is external; the engine's
failure channel carries an opaque failure exposing a displayed description
and an optional underlying cause. -/
structure Trap where
  cause : Option ErrObj
  msg : String

/-- `Trap::source` as the recovery path uses it: the trap's reported
underlying cause. -/
def Trap.source (t : Trap) : Option ErrObj :=
  t.cause

/-- Modelled from the spec: the engine preserves the error object handed to
its channel as the trap's cause verbatim, and the trap's description is
derived from that object's own. -/
def Trap.ofErrObj (o : ErrObj) : Trap :=
  ⟨some o, o.display⟩

/-- `impl From<ExecutionError> for Trap` from
`src/fvm/src/kernel/error.rs`: allocate a fresh carrier wrapping the error
and hand it to the engine's channel. Returns the trap together with the
carrier's state. -/
def trapFromExecutionError (e : ExecutionError) : Trap × ErrorEnvelope :=
  (Trap.ofErrObj .carrier, ErrorEnvelope.wrap e)

/-- `impl From<Trap> for ExecutionError` from
`src/fvm/src/kernel/error.rs`:
`e.source()` then downcast to `ErrorEnvelope`, then `inner.lock().ok()`
(fails when poisoned), then `take()` the slot, and on any failure fall back
to `ExecutionError::SystemError(e.into())` built from the trap's own
description. Returns the recovered error together with the carrier state
after the attempt. -/
def executionErrorFromTrap (t : Trap) (env : ErrorEnvelope) :
    ExecutionError × ErrorEnvelope :=
  match t.source with
  | some .carrier =>
      if env.poisoned then
        (.SystemError ⟨t.msg⟩, env)
      else
        match env.inner with
        | some e => (e, ⟨env.poisoned, none⟩)
        | none => (.SystemError ⟨t.msg⟩, env)
  | _ => (.SystemError ⟨t.msg⟩, env)

/-- C1: Round-trip through the boundary: for every `ExecutionError` `e`,
wrapping `e` into a trap and unwrapping that trap against the carrier state
the wrap produced yields `e` back (same variant, same code, same
message). -/
theorem roundTrip_through_boundary (e : ExecutionError) :
    (executionErrorFromTrap (trapFromExecutionError e).1
      (trapFromExecutionError e).2).1 = e :=
  rfl

/-- C2: Extract-once: after wrapping `e` and one successful unwrap, the
carrier's slot is empty, and a second unwrap against the same carrier
returns the synthesized `System` fault built from the carrier's constant
description rather than the slot's former content. -/
theorem extract_once (e : ExecutionError) :
    (executionErrorFromTrap (trapFromExecutionError e).1
      (trapFromExecutionError e).2).2.inner = none ∧
    (executionErrorFromTrap (trapFromExecutionError e).1
      (executionErrorFromTrap (trapFromExecutionError e).1
        (trapFromExecutionError e).2).2).1
      = .SystemError ⟨ErrorEnvelope.display⟩ :=
  ⟨rfl, rfl⟩

/-- C3: Foreign-origin degradation and infallibility: unwrapping a trap
with no carrier anywhere in its cause chain always returns, for any carrier
state, the `System` fault synthesized from the trap's own description, and
leaves the state untouched; no secondary recovery error exists. -/
theorem foreign_degradation (t : Trap) (env : ErrorEnvelope)
    (h : t.cause.all (fun o => !o.chainHasCarrier) = true) :
    executionErrorFromTrap t env = (.SystemError ⟨t.msg⟩, env) := by
  unfold executionErrorFromTrap Trap.source
  cases hc : t.cause with
  | none => rfl
  | some o =>
    cases o with
    | carrier => simp [hc, ErrObj.chainHasCarrier] at h
    | foreign m s => rfl

/-- Witness for C3: a concrete foreign trap with no carrier in its chain
degrades to the `System` fault carrying the trap's description. -/
theorem foreign_degradation_witness :
    ((Trap.mk (some (.foreign "wasm trap: unreachable" none))
        "wasm trap: unreachable").cause.all
      (fun o => !o.chainHasCarrier) = true) ∧
    executionErrorFromTrap
        (Trap.mk (some (.foreign "wasm trap: unreachable" none))
          "wasm trap: unreachable")
        (ErrorEnvelope.wrap (.Syscall ⟨"boom", none⟩))
      = (.SystemError ⟨"wasm trap: unreachable"⟩,
          ErrorEnvelope.wrap (.Syscall ⟨"boom", none⟩)) :=
  ⟨by decide,
    foreign_degradation
      (Trap.mk (some (.foreign "wasm trap: unreachable" none))
        "wasm trap: unreachable")
      (ErrorEnvelope.wrap (.Syscall ⟨"boom", none⟩))
      (by decide)⟩

/-- C4 (counterexample): the claim says the carrier is located at any
depth of the cause chain, not only as the immediate cause. Here the engine
re-exports the failure behind one foreign wrapper: the carrier sits at
depth two of the chain with its slot still occupied, yet unwrap does not
recover the wrapped error — it returns the synthesized `System` fault and
leaves the slot untouched. -/
theorem carrier_depth_counterexample :
    (ErrObj.foreign "engine wrapper" (some .carrier)).chainHasCarrier
      = true ∧
    executionErrorFromTrap
        (Trap.ofErrObj (.foreign "engine wrapper" (some .carrier)))
        (ErrorEnvelope.wrap (.Syscall ⟨"boom", none⟩))
      = (.SystemError ⟨"engine wrapper"⟩,
          ErrorEnvelope.wrap (.Syscall ⟨"boom", none⟩)) ∧
    ExecutionError.SystemError ⟨"engine wrapper"⟩
      ≠ ExecutionError.Syscall ⟨"boom", none⟩ := by
  refine ⟨rfl, rfl, ?_⟩
  decide

/-- C4 (amended): unwrap inspects only the trap's immediate reported
cause: when that cause is the carrier (which the carrier's self-referential
`source` guarantees whenever the engine reports the wrapped object's own
source), and the slot holds a value under a healthy lock, the error is
recovered; the carrier's `source` is indeed itself. -/
theorem carrier_immediate_cause (t : Trap) (env : ErrorEnvelope)
    (e : ExecutionError) (hc : t.cause = some .carrier)
    (hp : env.poisoned = false) (hs : env.inner = some e) :
    ErrObj.source .carrier = some .carrier ∧
    executionErrorFromTrap t env = (e, ⟨false, none⟩) := by
  refine ⟨rfl, ?_⟩
  unfold executionErrorFromTrap Trap.source
  rw [hc]
  simp [hp, hs]

/-- Witness for C4 (amended): a trap whose immediate cause is the carrier,
with an occupied healthy slot, is unwrapped to the wrapped error. -/
theorem carrier_immediate_cause_witness :
    (Trap.ofErrObj .carrier).cause = some .carrier ∧
    (ErrorEnvelope.wrap (.Syscall ⟨"boom", none⟩)).poisoned = false ∧
    (ErrorEnvelope.wrap (.Syscall ⟨"boom", none⟩)).inner
      = some (.Syscall ⟨"boom", none⟩) ∧
    (ErrObj.source .carrier = some .carrier ∧
      executionErrorFromTrap (Trap.ofErrObj .carrier)
          (ErrorEnvelope.wrap (.Syscall ⟨"boom", none⟩))
        = (.Syscall ⟨"boom", none⟩, ⟨false, none⟩)) :=
  ⟨rfl, rfl, rfl,
    carrier_immediate_cause (Trap.ofErrObj .carrier)
      (ErrorEnvelope.wrap (.Syscall ⟨"boom", none⟩))
      (.Syscall ⟨"boom", none⟩) rfl rfl rfl⟩

/-- C5: Lock-failure safety: when the slot's lock acquisition fails
(poisoned mutex), unwrap neither panics nor blocks — it is a total
function here — and the poisoned, still-occupied carrier is treated
exactly like an already-empty one: the same synthesized `System` fault
comes back and the state is unchanged. -/
theorem lock_failure_as_empty (t : Trap) (e : ExecutionError) :
    executionErrorFromTrap t ⟨true, some e⟩
      = (.SystemError ⟨t.msg⟩, ⟨true, some e⟩) ∧
    (executionErrorFromTrap t ⟨true, some e⟩).1
      = (executionErrorFromTrap t ⟨false, none⟩).1 := by
  unfold executionErrorFromTrap Trap.source
  cases hc : t.cause with
  | none => exact ⟨rfl, rfl⟩
  | some o =>
    cases o with
    | carrier => exact ⟨rfl, rfl⟩
    | foreign m s => exact ⟨rfl, rfl⟩

/-- C6: Syscall precedence: a `Syscall` fault built with an advised code
`c` yields exactly `c` from `exit_code`; built without one it yields the
fixed fatal placeholder. -/
theorem syscall_precedence (m : String) (c : ExitCode) :
    (ExecutionError.Syscall ⟨m, some c⟩).exit_code = c ∧
    (ExecutionError.Syscall ⟨m, none⟩).exit_code
      = ExitCode.ErrPlaceholder :=
  ⟨rfl, rfl⟩

/-- C7: Actor delegation: for every actor fault — hence for every code in
the actor outcome-code space — `exit_code` on the `Actor` variant is
exactly the wrapped fault's own accessor, with no translation. -/
theorem actor_delegation (f : ActorError) :
    (ExecutionError.Actor f).exit_code = f.exit_code :=
  rfl

/-- C8: Exit-code totality and the System default: every constructible
`ExecutionError` has exactly one defined exit code, and every `System`
fault yields the same fixed placeholder code regardless of its cause. -/
theorem exit_code_total_system_default (e : ExecutionError)
    (a b : AnyhowError) :
    (∃ c : ExitCode, e.exit_code = c ∧ ∀ d, e.exit_code = d → d = c) ∧
    (ExecutionError.SystemError a).exit_code = ExitCode.ErrPlaceholder ∧
    (ExecutionError.SystemError a).exit_code
      = (ExecutionError.SystemError b).exit_code :=
  ⟨⟨e.exit_code, rfl, fun d hd => hd.symm⟩, rfl, rfl⟩

/-- C9: Block-storage adapter dispatch: the four malformed-reference
causes map to an `Actor` fault with the illegal-argument code, the
resource-exhaustion cause maps to an `Actor` fault with the
illegal-actor-behavior code, and the missing-state cause maps to a
`System` fault whose message contains the key's textual form. -/
theorem block_adapter_dispatch (d k : String) :
    ((ExecutionError.ofBlockError (.Unreachable d)).isActor = true ∧
      (ExecutionError.ofBlockError (.Unreachable d)).exit_code
        = ExitCode.SysErrIllegalArgument) ∧
    ((ExecutionError.ofBlockError (.InvalidHandle d)).isActor = true ∧
      (ExecutionError.ofBlockError (.InvalidHandle d)).exit_code
        = ExitCode.SysErrIllegalArgument) ∧
    ((ExecutionError.ofBlockError (.InvalidMultihashSpec d)).isActor = true ∧
      (ExecutionError.ofBlockError (.InvalidMultihashSpec d)).exit_code
        = ExitCode.SysErrIllegalArgument) ∧
    ((ExecutionError.ofBlockError (.InvalidCodec d)).isActor = true ∧
      (ExecutionError.ofBlockError (.InvalidCodec d)).exit_code
        = ExitCode.SysErrIllegalArgument) ∧
    ((ExecutionError.ofBlockError .TooManyBlocks).isActor = true ∧
      (ExecutionError.ofBlockError .TooManyBlocks).exit_code
        = ExitCode.SysErrIllegalActor) ∧
    ((ExecutionError.ofBlockError (.MissingState k)).isSystemError = true ∧
      ∃ p q, ExecutionError.ofBlockError (.MissingState k)
        = .SystemError ⟨p ++ k ++ q⟩) :=
  ⟨⟨rfl, rfl⟩, ⟨rfl, rfl⟩, ⟨rfl, rfl⟩, ⟨rfl, rfl⟩, ⟨rfl, rfl⟩,
    ⟨rfl, "missing block: ", "", by simp [ExecutionError.ofBlockError]⟩⟩

/-- C10: The carrier's displayed description is the fixed constant
`"wrapping error"`, independent of the contained error; consequently, when
unwrap finds a wrap-produced carrier whose slot is already empty, the
synthesized `System` fault is built from that constant — the same result
for every wrapped error, so the original message and code are not
recoverable from it. -/
theorem constant_display_empty_slot (e : ExecutionError) :
    ErrObj.display .carrier = "wrapping error" ∧
    (trapFromExecutionError e).1.msg = "wrapping error" ∧
    executionErrorFromTrap (trapFromExecutionError e).1 ⟨false, none⟩
      = (.SystemError ⟨"wrapping error"⟩, ⟨false, none⟩) :=
  ⟨rfl, rfl, rfl⟩

end RefFvm
